import Mathlib

/-!
Verification of the Matrix protocol adapter (plugin-matrix).

The definitions below are a shallow embedding of the service layer
(`src/service.ts`, and for MIME detection the enhanced variant of
`handleRoomMessage`).  JavaScript objects are modelled as structures with
`Option`-typed fields (`none` = the field is absent / `undefined`);
JavaScript truthiness on strings (`undefined` and `""` are falsy) is
modelled by `strTruthy`, and template-literal interpolation of a possibly
`undefined` value by `jsShow`.  Network effects (room-state queries,
profile lookup, media download, the send primitive) are injected through
an explicit environment, and the handlers return the data they would emit
or send instead of performing I/O.
-/

namespace MatrixPlugin

/-- JavaScript truthiness of an optional string: `undefined` and `""` are falsy. -/
def strTruthy : Option String → Bool
  | none => false
  | some s => !(s == "")

/-- JavaScript `a || d` for an optional string `a` and default `d`. -/
def strOr (a : Option String) (d : String) : String :=
  if strTruthy a then a.getD d else d

/-- Template-literal interpolation of a possibly-`undefined` string:
`${undefined}` renders as `"undefined"`. -/
def jsShow : Option String → String
  | none => "undefined"
  | some s => s

/-- JavaScript truthiness of an optional number: `undefined` and `0` are falsy. -/
def natTruthy : Option Nat → Bool
  | none => false
  | some n => !(n == 0)

/-- `Math.round(n / 1024)` for a natural byte count `n`
(round half up, which for nonnegative values is `⌊n/1024 + 1/2⌋`). -/
def jsRound1024 (n : Nat) : Nat :=
  (n + 512) / 1024

/-- Does the character list `l` start with `p`? (helper for `listHasSub`). -/
def listStartsWith : List Char → List Char → Bool
  | [], _ => true
  | _ :: _, [] => false
  | p :: ps, c :: cs => p == c && listStartsWith ps cs

/-- Does the character list contain `pat` as a contiguous sub-list? -/
def listHasSub (pat : List Char) : List Char → Bool
  | [] => pat.isEmpty
  | c :: cs => listStartsWith pat (c :: cs) || listHasSub pat cs

/-- JavaScript `s.includes(pat)` on strings. -/
def strIncludes (s pat : String) : Bool :=
  listHasSub pat.toList s.toList

/-- `s.startsWith(pre)` on strings (structurally recursive, so that it
evaluates in the kernel). -/
def strStartsWith (s pre : String) : Bool :=
  listStartsWith pre.toList s.toList

/-- ASCII `toLowerCase`, character-wise. -/
def strToLower (s : String) : String :=
  String.mk (s.toList.map Char.toLower)

/-- ASCII `toUpperCase`, character-wise. -/
def strToUpper (s : String) : String :=
  String.mk (s.toList.map Char.toUpper)

/-- Split a character list on a separator character, JavaScript
`split`-style: the empty list yields one empty piece, a trailing separator
yields a trailing empty piece. -/
def splitOnChar (sep : Char) : List Char → List (List Char)
  | [] => [[]]
  | c :: rest =>
      if c == sep then [] :: splitOnChar sep rest
      else
        match splitOnChar sep rest with
        | [] => [[c]]
        | l :: ls => (c :: l) :: ls

/-- One pass of the hard-split loop of `splitMessage`
(`for (let i = 0; i < line.length; i += maxLength)`), on character lists,
with fuel for termination; fuel `= l.length` is always enough when `k ≥ 1`. -/
def chunkChars (k : Nat) : Nat → List Char → List (List Char)
  | _, [] => []
  | 0, l => [l]
  | Nat.succ fuel, l => List.take k l :: chunkChars k fuel (List.drop k l)

/-- `line.substring(i, i + maxLength)` pieces of a single over-long line. -/
def hardSplit (line : String) (maxLength : Nat) : List String :=
  (chunkChars maxLength line.toList.length line.toList).map fun cs => String.mk cs

/-- The accumulator loop of `splitMessage` over the lines of the text:
`chunks` is the list built so far and `currentChunk` the chunk being grown. -/
def splitMessageLoop (maxLength : Nat) : List String → List String → String → List String
  | [], chunks, currentChunk =>
      if currentChunk == "" then chunks else chunks ++ [currentChunk]
  | line :: rest, chunks, currentChunk =>
      if currentChunk.length + line.length + 1 ≤ maxLength then
        splitMessageLoop maxLength rest chunks
          (if currentChunk == "" then line else currentChunk ++ "\n" ++ line)
      else
        let chunks' := if currentChunk == "" then chunks else chunks ++ [currentChunk]
        if line.length > maxLength then
          splitMessageLoop maxLength rest (chunks' ++ hardSplit line maxLength) ""
        else
          splitMessageLoop maxLength rest chunks' line

/-- `splitMessage(text, maxLength)`: split on line boundaries into chunks of at
most `maxLength` characters, hard-splitting any single line longer than the
limit at the character boundary. -/
def splitMessage (text : String) (maxLength : Nat) : List String :=
  splitMessageLoop maxLength
    ((splitOnChar '\n' text.toList).map fun cs => String.mk cs) [] ""

/-! ### Base64 (Node `Buffer.toString("base64")`, RFC 4648 with padding) -/

/-- The base64 alphabet, as a character list. -/
def base64Chars : List Char :=
  "ABCDEFGHIJKLMNOPQRSTUVWXYZabcdefghijklmnopqrstuvwxyz0123456789+/".toList

/-- The character encoding the 6-bit value `n`. -/
def sextetChar (n : Nat) : Char :=
  base64Chars.getD n '?'

/-- Index of `c` in a character list (used to invert `sextetChar`). -/
def charIndex (c : Char) : List Char → Option Nat
  | [] => none
  | x :: xs => if x == c then some 0 else (charIndex c xs).map (· + 1)

/-- The 6-bit value a base64 character stands for, if any. -/
def sextetVal (c : Char) : Option Nat :=
  charIndex c base64Chars

/-- Base64-encode a byte list (each entry `< 256`), with `=` padding. -/
def base64EncodeList : List Nat → List Char
  | [] => []
  | [b1] =>
      [sextetChar (b1 / 4), sextetChar (b1 % 4 * 16), '=', '=']
  | [b1, b2] =>
      [sextetChar (b1 / 4), sextetChar (b1 % 4 * 16 + b2 / 16),
       sextetChar (b2 % 16 * 4), '=']
  | b1 :: b2 :: b3 :: rest =>
      sextetChar (b1 / 4) :: sextetChar (b1 % 4 * 16 + b2 / 16) ::
      sextetChar (b2 % 16 * 4 + b3 / 64) :: sextetChar (b3 % 64) ::
      base64EncodeList rest

/-- Base64-decode a character list back into bytes; `none` on malformed input. -/
def base64DecodeList : List Char → Option (List Nat)
  | [] => some []
  | c1 :: c2 :: c3 :: c4 :: rest =>
      match sextetVal c1, sextetVal c2 with
      | some s1, some s2 =>
          if c3 == '=' then
            if c4 == '=' && rest.isEmpty then some [s1 * 4 + s2 / 16] else none
          else
            match sextetVal c3 with
            | some s3 =>
                if c4 == '=' then
                  if rest.isEmpty then some [s1 * 4 + s2 / 16, s2 % 16 * 16 + s3 / 4]
                  else none
                else
                  match sextetVal c4 with
                  | some s4 =>
                      (base64DecodeList rest).map fun bs =>
                        (s1 * 4 + s2 / 16) :: (s2 % 16 * 16 + s3 / 4) ::
                        (s3 % 4 * 64 + s4) :: bs
                  | none => none
            | none => none
      | _, _ => none
  | _ => none

/-- Base64-encode a byte list into a Lean string. -/
def base64String (bytes : List Nat) : String :=
  String.mk (base64EncodeList bytes)

/-! ### Allow-list state (`allowedRoomIds` / `dynamicRoomIds`) -/

/-- The fields of `MatrixService` the handlers read: the optional static
allow-list parsed from `MATRIX_ROOM_IDS`, the mutable dynamic set, the
adapter's own user id (`client.getUserId()`), and the
`shouldIgnoreBotMessages` setting. -/
structure ServiceState where
  allowedRoomIds : Option (List String)
  dynamicRoomIds : List String
  ownUserId : String
  shouldIgnoreBotMessages : Bool
deriving DecidableEq, Repr

/-- `isRoomAllowed(roomId)`: with no static list everything is allowed;
otherwise the room must be in the static list or the dynamic set. -/
def isRoomAllowed (st : ServiceState) (roomId : String) : Bool :=
  match st.allowedRoomIds with
  | none => true
  | some l => l.contains roomId || st.dynamicRoomIds.contains roomId

/-- `addAllowedRoom(roomId)`: add to the dynamic set (idempotent), return true. -/
def addAllowedRoom (st : ServiceState) (roomId : String) : ServiceState :=
  { st with dynamicRoomIds :=
      if st.dynamicRoomIds.contains roomId then st.dynamicRoomIds
      else roomId :: st.dynamicRoomIds }

/-- `n || d` for an optional number (`undefined` and `0` are falsy), as in
`event.origin_server_ts || Date.now()`. -/
def natOr (a : Option Nat) (d : Nat) : Nat :=
  if natTruthy a then a.getD d else d

/-- The `m.relates_to` record of a reaction event's content. -/
structure RelatesTo where
  rel_type : Option String
  event_id : Option String
  key : Option String
deriving DecidableEq, Repr

/-- The `info` record of a media message content. -/
structure MessageInfo where
  mimetype : Option String
  size : Option Nat
  w : Option Nat
  h : Option Nat
deriving DecidableEq, Repr

/-- A room event's `content` object; every field may be absent. -/
structure MessageContent where
  msgtype : Option String
  body : Option String
  url : Option String
  info : Option MessageInfo
  relatesTo : Option RelatesTo
  membership : Option String
  algorithm : Option String
deriving DecidableEq, Repr

/-- A raw Matrix event as the handlers read it. -/
structure MatrixEvent where
  sender : String
  event_id : String
  type : String
  content : Option MessageContent
  origin_server_ts : Option Nat
  state_key : Option String
deriving DecidableEq, Repr

/-- The room record `getRoomInfo` produces. -/
structure MatrixRoom where
  id : String
  name : Option String
  topic : Option String
  isDirect : Bool
  isEncrypted : Bool
  memberCount : Nat
  avatarUrl : Option String
deriving DecidableEq, Repr

/-- `ContentType` classification of a media attachment (`Audio` models the
enum member `AUDIO`). -/
inductive ContentType where
  | IMAGE
  | VIDEO
  | Audio
  | DOCUMENT
deriving DecidableEq, Repr

/-- The enum's name as it is interpolated into the description string. -/
def ctName : ContentType → String
  | .IMAGE => "IMAGE"
  | .VIDEO => "VIDEO"
  | .Audio => "AUDIO"
  | .DOCUMENT => "DOCUMENT"

/-- A `Media` attachment object.  The runtime-generated uuid `id` (seeded with
`mxcUrl-fileName`) is omitted: it carries no claim-relevant data. -/
structure Media where
  url : String
  title : String
  source : String
  description : String
  text : String
  contentType : ContentType
deriving DecidableEq, Repr

/-- Channel classification of the room the message came from. -/
inductive ChannelKind where
  | DM
  | GROUP
deriving DecidableEq, Repr

/-- The `metadata` record of a forwarded message; `none` means the field is
absent from the object (JavaScript `undefined`). -/
structure MemoryMetadata where
  messageType : Option String
  originalEvent : Option String
  roomId : Option String
  isEncrypted : Option Bool
  isDecrypted : Option Bool
  isMedia : Option Bool
  mediaUrl : Option String
  mimeType : Option String
  fileSize : Option Nat
deriving DecidableEq, Repr

/-- The `content` record of a forwarded message memory. -/
structure MemoryContent where
  text : Option String
  source : String
  channelType : ChannelKind
  attachments : Option (List Media)
  metadata : MemoryMetadata
deriving DecidableEq, Repr

/-- A forwarded message memory.  The uuid fields are kept as their seed
strings (`createUniqueUuid(runtime, seed)` is injective in the seed). -/
structure Memory where
  id : String
  entityId : String
  content : MemoryContent
  roomId : String
  createdAt : Nat
deriving DecidableEq, Repr

/-- Outcome of `downloadBuffer`: the resolved bytes, or a rejection
(non-200 status, over-50MiB, timeout, or stream error). -/
inductive DownloadOutcome where
  | success (bytes : List Nat)
  | failure

/-- The injected environment: results of the asynchronous collaborator calls
a single event's handling may perform. -/
structure Env where
  room : MatrixRoom
  displayName : Option String
  resolveMxc : String → Option String
  download : String → DownloadOutcome
  now : Nat

/-- The MIME-prefix classification `downloadMediaContent` performs. -/
def classifyContentType (mimeType : String) : ContentType :=
  if strStartsWith mimeType "image/" then .IMAGE
  else if strStartsWith mimeType "video/" then .VIDEO
  else if strStartsWith mimeType "audio/" then .Audio
  else .DOCUMENT

/-- `downloadMediaContent(mxcUrl, mimeType, fileName)`: resolve the MXC
locator to an HTTP URL, download, base64-inline into a `data:` URI and
classify; `none` on any failure (all errors are caught internally). -/
def downloadMediaContent (env : Env) (mxcUrl mimeType fileName : String) :
    Option Media :=
  match env.resolveMxc mxcUrl with
  | none => none
  | some httpUrl =>
      match env.download httpUrl with
      | .failure => none
      | .success bytes =>
          if bytes.isEmpty then none
          else
            let base64Data := base64String bytes
            if base64Data == "" then none
            else
              let contentType := classifyContentType mimeType
              some {
                url := "data:" ++ mimeType ++ ";base64," ++ base64Data
                title := fileName
                source := mxcUrl
                description := ctName contentType ++ " file: " ++ fileName ++
                  " (" ++ toString (jsRound1024 bytes.length) ++ "KB)"
                text := fileName
                contentType := contentType }

/-- A call to the protocol send primitive `client.sendMessage(roomId, {...})`:
the message type, plain body, the threading relation's target event id when a
`m.relates_to`/`m.in_reply_to` record is attached, and the HTML
`formatted_body` when attached. -/
structure SendRequest where
  msgtype : String
  body : String
  relatesToEventId : Option String
  formattedBody : Option String
deriving DecidableEq, Repr

/-- The reply callback built in `handleRoomMessage` and
`handleEncryptedMessage`: if the response has text, split it into chunks of
at most 4096 characters and send each as a bare `m.text` message (no
quoting, no threading relation, no formatted body). -/
def replyCallbackSends (text : Option String) : List SendRequest :=
  if strTruthy text then
    (splitMessage (text.getD "") 4096).map fun chunk =>
      { msgtype := "m.text", body := chunk
        relatesToEventId := none, formattedBody := none }
  else []

/-- The reply callback built in `handleReactionEvent`: a single unchunked
bare `m.text` message. -/
def reactionCallbackSends (text : Option String) : List SendRequest :=
  if strTruthy text then
    [{ msgtype := "m.text", body := text.getD ""
       relatesToEventId := none, formattedBody := none }]
  else []

/-- Terminal state of one inbound message event: dropped, or emitted to the
runtime sink with the produced memory and room context. -/
inductive HandleResult where
  | dropped
  | emitted (memory : Memory) (room : MatrixRoom)
deriving DecidableEq, Repr

/-- Whether the event was forwarded to the runtime. -/
def HandleResult.isEmitted : HandleResult → Bool
  | .dropped => false
  | .emitted _ _ => true

/-- The metadata of the emitted memory, when one was emitted. -/
def emittedMetadata : HandleResult → Option MemoryMetadata
  | .dropped => none
  | .emitted m _ => some m.content.metadata

/-- The display text of the emitted memory, when one was emitted. -/
def emittedText : HandleResult → Option (Option String)
  | .dropped => none
  | .emitted m _ => some m.content.text

/-- The attachments field of the emitted memory, when one was emitted. -/
def emittedAttachments : HandleResult → Option (Option (List Media))
  | .dropped => none
  | .emitted m _ => some m.content.attachments

/-- The `supportedTypes` list of `handleRoomMessage`. -/
def supportedTypes : List String :=
  ["m.text", "m.emote", "m.notice", "m.image", "m.file", "m.audio", "m.video"]

/-- `msgtype.replace("m.", "")`, reified at the four message types that can
reach the media branch. -/
def mediaTypeOf : String → String
  | "m.image" => "image"
  | "m.file" => "file"
  | "m.audio" => "audio"
  | "m.video" => "video"
  | s => s

/-- The kind-specific formatting result: display text, media flag, and the
attachments gathered. -/
structure FormattedMessage where
  text : Option String
  isMedia : Bool
  attachments : List Media
deriving DecidableEq, Repr

/-- The size suffix of the image marker line:
`imageInfo?.size ? \x28...KB\x29 : ""`. -/
def sizeInfoText (info : Option MessageInfo) : String :=
  if natTruthy (info.bind (·.size)) then
    " (" ++ toString (jsRound1024 ((info.bind (·.size)).getD 0)) ++ "KB)"
  else ""

/-- The dimension suffix of the image marker line:
`imageInfo?.w && imageInfo?.h ? ...` -/
def dimensionInfoText (info : Option MessageInfo) : String :=
  if natTruthy (info.bind (·.w)) && natTruthy (info.bind (·.h)) then
    " " ++ toString ((info.bind (·.w)).getD 0) ++ "x" ++
      toString ((info.bind (·.h)).getD 0)
  else ""

/-- The plaintext image branch of `handleRoomMessage`: marker line, then —
when a MIME type is declared — the download attempt with a success or
failure marker; without a declared MIME type, the metadata-incomplete
marker.  (The catch-branch marker is unreachable: `downloadMediaContent`
catches internally and returns null.) -/
def plainImageFormat (env : Env) (c : MessageContent) : FormattedMessage :=
  let fileName := strOr c.body "image"
  let header := "📷 **IMAGE ATTACHED**: " ++ fileName ++
    dimensionInfoText c.info ++ sizeInfoText c.info ++ "\n\n" ++
    strOr c.body "User shared an image"
  if strTruthy (c.info.bind (·.mimetype)) then
    match downloadMediaContent env (c.url.getD "")
        ((c.info.bind (·.mimetype)).getD "") fileName with
    | some media =>
        { text := some (header ++
            "\n\n✅ Image successfully processed and available for analysis.")
          isMedia := true, attachments := [media] }
    | none =>
        { text := some (header ++
            "\n\n⚠️ Image could not be processed - content may not be accessible.")
          isMedia := true, attachments := [] }
  else
    { text := some (header ++
        "\n\n⚠️ Image metadata incomplete - cannot process for analysis.")
      isMedia := true, attachments := [] }

/-- Kind dispatch of `handleRoomMessage` over a supported plaintext content. -/
def formatPlainMessage (env : Env) (sender : String) (c : MessageContent) :
    FormattedMessage :=
  if c.msgtype == some "m.emote" then
    { text := some ("*" ++ sender ++ " " ++ jsShow c.body ++ "*")
      isMedia := false, attachments := [] }
  else if c.msgtype == some "m.notice" then
    { text := some ("[Notice] " ++ jsShow c.body)
      isMedia := false, attachments := [] }
  else if ["m.image", "m.file", "m.audio", "m.video"].contains
      (c.msgtype.getD "") && c.msgtype.isSome then
    if c.msgtype == some "m.image" && strTruthy c.url then
      plainImageFormat env c
    else
      let mediaType := mediaTypeOf (c.msgtype.getD "")
      let base := "[" ++ strToUpper mediaType ++ "] " ++
        strOr c.body ("Shared a " ++ mediaType)
      { text := some (if strTruthy c.url then
            base ++ " (" ++ c.url.getD "" ++ ")" else base)
        isMedia := true, attachments := [] }
  else
    { text := c.body, isMedia := false, attachments := [] }

/-- `handleRoomMessage(roomId, event)`: the self-echo, allow-list, bot and
supported-type filters, then kind formatting and memory construction; the
produced reply callback is `replyCallbackSends`. -/
def handleRoomMessage (st : ServiceState) (env : Env) (roomId : String)
    (event : MatrixEvent) : HandleResult :=
  if event.sender == st.ownUserId then .dropped
  else if st.allowedRoomIds.isSome && !isRoomAllowed st roomId then .dropped
  else if st.shouldIgnoreBotMessages && strIncludes event.sender "bot" then
    .dropped
  else
    match event.content with
    | none => .dropped
    | some c =>
        if !(match c.msgtype with
             | some t => supportedTypes.contains t
             | none => false) then .dropped
        else
          let fm := formatPlainMessage env event.sender c
          .emitted
            { id := event.event_id
              entityId := event.sender
              content :=
                { text := fm.text
                  source := "matrix"
                  channelType := if env.room.isDirect then .DM else .GROUP
                  attachments :=
                    if fm.attachments.length > 0 then some fm.attachments
                    else none
                  metadata :=
                    { messageType := c.msgtype
                      originalEvent := some event.event_id
                      roomId := some roomId
                      isEncrypted := none
                      isDecrypted := none
                      isMedia := some fm.isMedia
                      mediaUrl := c.url
                      mimeType := c.info.bind (·.mimetype)
                      fileSize := c.info.bind (·.size) } }
              roomId := roomId
              createdAt := natOr event.origin_server_ts env.now }
            env.room

/-- The encrypted-image branch of `handleEncryptedMessage` (same structure as
the plaintext one, with encrypted markers and defaults). -/
def encryptedImageFormat (env : Env) (c : MessageContent) : FormattedMessage :=
  let fileName := strOr c.body "encrypted_image"
  let header := "🔐📷 **ENCRYPTED IMAGE ATTACHED**: " ++ fileName ++
    dimensionInfoText c.info ++ sizeInfoText c.info ++ "\n\n" ++
    strOr c.body "User shared an encrypted image"
  if strTruthy (c.info.bind (·.mimetype)) then
    match downloadMediaContent env (c.url.getD "")
        ((c.info.bind (·.mimetype)).getD "") fileName with
    | some media =>
        { text := some (header ++
            "\n\n✅ Encrypted image successfully decrypted and processed for analysis.")
          isMedia := true, attachments := [media] }
    | none =>
        { text := some (header ++
            "\n\n⚠️ Encrypted image could not be processed - content may not be accessible.")
          isMedia := true, attachments := [] }
  else
    { text := some (header ++
        "\n\n⚠️ Encrypted image metadata incomplete - cannot process for analysis.")
      isMedia := true, attachments := [] }

/-- Kind dispatch of `handleEncryptedMessage` over an in-place-decrypted
content (only reached when `msgtype` and `body` are truthy). -/
def formatDecryptedMessage (env : Env) (sender : String) (c : MessageContent) :
    FormattedMessage :=
  if c.msgtype == some "m.emote" then
    { text := some ("*" ++ sender ++ " " ++ jsShow c.body ++ "*")
      isMedia := false, attachments := [] }
  else if c.msgtype == some "m.notice" then
    { text := some ("[Notice] " ++ jsShow c.body)
      isMedia := false, attachments := [] }
  else if ["m.image", "m.file", "m.audio", "m.video"].contains
      (c.msgtype.getD "") && c.msgtype.isSome then
    if c.msgtype == some "m.image" && strTruthy c.url then
      encryptedImageFormat env c
    else
      let mediaType := mediaTypeOf (c.msgtype.getD "")
      let base := "🔐[" ++ strToUpper mediaType ++ "] " ++
        strOr c.body ("Shared an encrypted " ++ mediaType)
      { text := some (if strTruthy c.url then
            base ++ " (" ++ c.url.getD "" ++ ")" else base)
        isMedia := true, attachments := [] }
  else
    { text := some (c.body.getD ""), isMedia := false, attachments := [] }

/-- `handleEncryptedMessage(roomId, event)`: self-echo and allow-list
filters; the content counts as decrypted in place when it carries truthy
`msgtype` and `body`; otherwise the fixed placeholder is forwarded with
`isEncrypted=true, isDecrypted=false`. -/
def handleEncryptedMessage (st : ServiceState) (env : Env) (roomId : String)
    (event : MatrixEvent) : HandleResult :=
  if event.sender == st.ownUserId then .dropped
  else if st.allowedRoomIds.isSome && !isRoomAllowed st roomId then .dropped
  else
    let isDecrypted :=
      match event.content with
      | some c => strTruthy c.msgtype && strTruthy c.body
      | none => false
    let fm : FormattedMessage :=
      match event.content with
      | some c =>
          if isDecrypted then formatDecryptedMessage env event.sender c
          else { text := some "[Encrypted message - content not available]"
                 isMedia := false, attachments := [] }
      | none =>
          { text := some "[Encrypted message - content not available]"
            isMedia := false, attachments := [] }
    .emitted
      { id := event.event_id
        entityId := event.sender
        content :=
          { text := fm.text
            source := "matrix"
            channelType := if env.room.isDirect then .DM else .GROUP
            attachments :=
              if fm.attachments.length > 0 then some fm.attachments else none
            metadata :=
              { messageType :=
                  if isDecrypted then
                    some (strOr (event.content.bind (·.msgtype)) "m.text")
                  else some "m.room.encrypted"
                originalEvent := some event.event_id
                roomId := some roomId
                isEncrypted := some true
                isDecrypted := some isDecrypted
                isMedia := some fm.isMedia
                mediaUrl :=
                  if isDecrypted then event.content.bind (·.url) else none
                mimeType :=
                  if isDecrypted then
                    event.content.bind (fun c => c.info.bind (·.mimetype))
                  else none
                fileSize :=
                  if isDecrypted then
                    event.content.bind (fun c => c.info.bind (·.size))
                  else none } }
        roomId := roomId
        createdAt := natOr event.origin_server_ts env.now }
      env.room

/-- The memory a forwarded reaction produces (`inReplyTo` keeps the seed of
`createUniqueUuid(runtime, targetEventId)`). -/
structure ReactionMemory where
  id : String
  entityId : String
  text : String
  inReplyTo : Option String
  roomId : String
  createdAt : Nat
deriving DecidableEq, Repr

/-- The payload `handleReactionEvent` emits. -/
structure ReactionEmission where
  memory : ReactionMemory
  targetEventId : Option String
  reactionKey : Option String
deriving DecidableEq, Repr

/-- `handleReactionEvent(roomId, event)`: forwarded exactly when the content
carries an `m.relates_to` whose `rel_type` is `m.annotation`; no self-echo,
allow-list or presence-of-`key` check is performed.  (An event without a
content object throws on the field access and is dropped by the
`room.event` wrapper.) -/
def handleReactionEvent (st : ServiceState) (env : Env) (roomId : String)
    (event : MatrixEvent) : Option ReactionEmission :=
  match event.content with
  | none => none
  | some c =>
      match c.relatesTo with
      | none => none
      | some r =>
          if r.rel_type == some "m.annotation" then
            some
              { memory :=
                  { id := event.event_id
                    entityId := event.sender
                    text := "*Reacted with " ++ jsShow r.key ++ "*"
                    inReplyTo := r.event_id
                    roomId := roomId
                    createdAt := natOr event.origin_server_ts env.now }
                targetEventId := r.event_id
                reactionKey := r.key }
          else none

/-- The payload `handleMemberEvent` emits for a join or leave. -/
structure MemberEmission where
  joined : Bool
  entityIdSeed : String
  userId : String
  roomId : String
deriving DecidableEq, Repr

/-- `handleMemberEvent(roomId, event)`: emits USER_JOINED / USER_LEFT on the
`join` / `leave` memberships; no self-echo or allow-list check is
performed. -/
def handleMemberEvent (roomId : String) (event : MatrixEvent) :
    Option MemberEmission :=
  match event.content with
  | none => none
  | some c =>
      if c.membership == some "join" then
        some { joined := true
               entityIdSeed := strOr event.state_key event.sender
               userId := strOr event.state_key event.sender
               roomId := roomId }
      else if c.membership == some "leave" then
        some { joined := false
               entityIdSeed := strOr event.state_key event.sender
               userId := strOr event.state_key event.sender
               roomId := roomId }
      else none

/-- The outbound send target of `handleSendMessage`. -/
structure SendTarget where
  channelId : Option String
  entityId : Option String
deriving DecidableEq, Repr

/-- Terminal state of `handleSendMessage`: it threw, returned early with no
send (room not allowed), or proceeded and issued the listed sends. -/
inductive SendOutcome where
  | errorThrown
  | skipped
  | sent (requests : List SendRequest)
deriving DecidableEq

/-- `handleSendMessage(runtime, target, content)`: throws when the client is
not ready; silently skips (warning log only) when a static allow-list is
configured and the target room is not allowed; otherwise resolves the
target room (DM creation injected as `dmRoom`; its failure throws) and
sends the text in 4096-character chunks.  The per-attachment uploads — whose
individual failures are caught and logged — are injected as
`attachmentSends`. -/
def handleSendMessage (st : ServiceState) (clientReady : Bool)
    (dmRoom : Option String) (attachmentSends : List SendRequest)
    (target : SendTarget) (text : Option String) : SendOutcome :=
  if !clientReady then .errorThrown
  else if strTruthy target.channelId && st.allowedRoomIds.isSome &&
      !isRoomAllowed st (target.channelId.getD "") then .skipped
  else
    let targetRoomId : Option String :=
      if strTruthy target.channelId then target.channelId
      else if strTruthy target.entityId then dmRoom
      else none
    match targetRoomId with
    | none => .errorThrown
    | some _ =>
        let textSends :=
          if strTruthy text then
            (splitMessage (text.getD "") 4096).map fun chunk =>
              { msgtype := "m.text", body := chunk
                relatesToEventId := none, formattedBody := none }
          else []
        .sent (textSends ++ attachmentSends)

/-- MIME inference of the enhanced `handleRoomMessage` variant: lowercase the
content URL and test substring containment of the extension patterns in
order, falling back to `image/jpeg`. -/
def mimeFromUrl (url : String) : String :=
  let urlLower := strToLower url
  if strIncludes urlLower ".jpg" || strIncludes urlLower ".jpeg" then
    "image/jpeg"
  else if strIncludes urlLower ".png" then "image/png"
  else if strIncludes urlLower ".gif" then "image/gif"
  else if strIncludes urlLower ".webp" then "image/webp"
  else if strIncludes urlLower ".bmp" then "image/bmp"
  else if strIncludes urlLower ".svg" then "image/svg+xml"
  else "image/jpeg"

/-- The MIME type the enhanced image path ends up with: the declared
`info.mimetype` when truthy, else — when the URL is truthy — the
URL-substring inference. -/
def detectImageMime (declaredMime : Option String) (url : Option String) :
    Option String :=
  if strTruthy declaredMime then declaredMime
  else if strTruthy url then some (mimeFromUrl (url.getD "")) else declaredMime

/-- Modelled from the spec claim's words for comparison (not from the
source): MIME inferred case-insensitively from the FILENAME'S EXTENSION via
the fixed table, unmatched extensions falling back to `image/jpeg`. -/
def mimeFromFilenameClaim (fileName : String) : String :=
  match String.mk (((splitOnChar '.' (strToLower fileName).toList)).getLastD []) with
  | "jpg" => "image/jpeg"
  | "jpeg" => "image/jpeg"
  | "png" => "image/png"
  | "gif" => "image/gif"
  | "webp" => "image/webp"
  | "bmp" => "image/bmp"
  | "svg" => "image/svg+xml"
  | _ => "image/jpeg"

/-! ### Concrete fixtures used by the closed statements -/

/-- A content object with every field absent. -/
def emptyContent : MessageContent :=
  { msgtype := none, body := none, url := none, info := none
    relatesTo := none, membership := none, algorithm := none }

/-- A group room as `getRoomInfo` would report it. -/
def roomFixture : MatrixRoom :=
  { id := "!room:matrix.org", name := some "Test Room", topic := none
    isDirect := false, isEncrypted := false, memberCount := 3
    avatarUrl := none }

/-- Service state with no static allow-list configured. -/
def stNoList : ServiceState :=
  { allowedRoomIds := none, dynamicRoomIds := []
    ownUserId := "@bot:matrix.org", shouldIgnoreBotMessages := false }

/-- Service state whose static allow-list holds one other room. -/
def stRestricted : ServiceState :=
  { allowedRoomIds := some ["!allowed:matrix.org"], dynamicRoomIds := []
    ownUserId := "@bot:matrix.org", shouldIgnoreBotMessages := false }

/-- An environment in which every media download fails. -/
def envDefault : Env :=
  { room := roomFixture, displayName := some "Test User"
    resolveMxc := fun _ => none, download := fun _ => .failure, now := 1000 }

/-- An environment resolving one MXC locator and serving one 4-byte payload. -/
def envDownload : Env :=
  { room := roomFixture, displayName := some "Test User"
    resolveMxc := fun u =>
      if u == "mxc://matrix.org/abc123" then
        some "https://matrix.org/_matrix/media/v3/download/matrix.org/abc123"
      else none
    download := fun u =>
      if u == "https://matrix.org/_matrix/media/v3/download/matrix.org/abc123"
      then .success [137, 80, 78, 71]
      else .failure
    now := 1000 }

/-- A plaintext `m.text` event from a regular user. -/
def textEvent : MatrixEvent :=
  { sender := "@user:matrix.org", event_id := "$original123:matrix.org"
    type := "m.room.message"
    content := some { emptyContent with
      msgtype := some "m.text", body := some "Hello bot, how are you?" }
    origin_server_ts := some 1234567890, state_key := none }

/-- The same `m.text` event sent by the adapter's own identity. -/
def selfTextEvent : MatrixEvent :=
  { textEvent with sender := "@bot:matrix.org" }

/-- An annotation reaction sent by the adapter's own identity. -/
def selfReactionEvent : MatrixEvent :=
  { sender := "@bot:matrix.org", event_id := "$selfreact:matrix.org"
    type := "m.reaction"
    content := some { emptyContent with
      relatesTo := some { rel_type := some "m.annotation"
                          event_id := some "$t:matrix.org"
                          key := some "👍" } }
    origin_server_ts := some 2, state_key := none }

/-- A join membership event for the adapter's own identity. -/
def selfMemberEvent : MatrixEvent :=
  { sender := "@bot:matrix.org", event_id := "$selfjoin:matrix.org"
    type := "m.room.member"
    content := some { emptyContent with membership := some "join" }
    origin_server_ts := some 3, state_key := some "@bot:matrix.org" }

/-- An annotation reaction whose relation carries neither `event_id` nor
`key`. -/
def reactionNoKeyEvent : MatrixEvent :=
  { sender := "@user:matrix.org", event_id := "$react2:matrix.org"
    type := "m.reaction"
    content := some { emptyContent with
      relatesTo := some { rel_type := some "m.annotation"
                          event_id := none, key := none } }
    origin_server_ts := some 4, state_key := none }

/-- A reaction event whose content carries no `m.relates_to` relation at
all. -/
def noRelationReactionEvent : MatrixEvent :=
  { sender := "@user:matrix.org", event_id := "$react3:matrix.org"
    type := "m.reaction"
    content := some emptyContent
    origin_server_ts := some 6, state_key := none }

/-- An encrypted event whose content still carries only the algorithm (no
`msgtype`/`body`): decryption did not happen in place. -/
def encryptedUnreadableEvent : MatrixEvent :=
  { sender := "@user:matrix.org", event_id := "$enc1:matrix.org"
    type := "m.room.encrypted"
    content := some { emptyContent with
      algorithm := some "m.megolm.v1.aes-sha2" }
    origin_server_ts := some 5, state_key := none }

/-- An `m.image` event, parameterized by the pieces the image claim ranges
over. -/
def imageEvent (sender eventId : String) (body : Option String) (u : String)
    (info : MessageInfo) (ts : Option Nat) : MatrixEvent :=
  { sender := sender, event_id := eventId, type := "m.room.message"
    content := some { emptyContent with
      msgtype := some "m.image", body := body, url := some u
      info := some info }
    origin_server_ts := ts, state_key := none }

/-- The image info of the concrete witness event. -/
def pngInfo : MessageInfo :=
  { mimetype := some "image/png", size := some 1024000
    w := some 1920, h := some 1080 }

/-- A reply text of 5000 identical characters, longer than one 4096-character
chunk. -/
def longReplyText : String :=
  String.mk (List.replicate 5000 'A')

end MatrixPlugin

namespace MatrixPlugin

/-! ### Base64 helper lemmas -/

/-- Decoding inverts encoding on each 6-bit value (checked over `Fin 64`). -/
theorem sextetVal_sextetChar_fin :
    ∀ s : Fin 64, sextetVal (sextetChar s.val) = some s.val := by decide

/-- No alphabet character is the padding character (checked over `Fin 64`). -/
theorem sextetChar_ne_pad_fin :
    ∀ s : Fin 64, (sextetChar s.val == '=') = false := by decide

/-- Decoding inverts encoding on each 6-bit value. -/
theorem sextetVal_sextetChar (s : Nat) (h : s < 64) :
    sextetVal (sextetChar s) = some s :=
  sextetVal_sextetChar_fin ⟨s, h⟩

/-- No alphabet character is the padding character. -/
theorem sextetChar_ne_pad (s : Nat) (h : s < 64) :
    (sextetChar s == '=') = false :=
  sextetChar_ne_pad_fin ⟨s, h⟩

/-- Round-trip law of the base64 embedding: decoding the encoding of any
byte list gives the bytes back. -/
theorem base64_roundtrip : ∀ bs : List Nat, (∀ b ∈ bs, b < 256) →
    base64DecodeList (base64EncodeList bs) = some bs
  | [], _ => rfl
  | [b1], h => by
      have hb1 : b1 < 256 := h b1 (by simp)
      have h1 : b1 / 4 < 64 := by omega
      have h2 : b1 % 4 * 16 < 64 := by omega
      simp [base64EncodeList, base64DecodeList,
        sextetVal_sextetChar _ h1, sextetVal_sextetChar _ h2]
      omega
  | [b1, b2], h => by
      have hb1 : b1 < 256 := h b1 (by simp)
      have hb2 : b2 < 256 := h b2 (by simp)
      have h1 : b1 / 4 < 64 := by omega
      have h2 : b1 % 4 * 16 + b2 / 16 < 64 := by omega
      have h3 : b2 % 16 * 4 < 64 := by omega
      simp [base64EncodeList, base64DecodeList,
        sextetVal_sextetChar _ h1, sextetVal_sextetChar _ h2,
        sextetVal_sextetChar _ h3, sextetChar_ne_pad _ h3]
      omega
  | b1 :: b2 :: b3 :: rest, h => by
      have hb1 : b1 < 256 := h b1 (by simp)
      have hb2 : b2 < 256 := h b2 (by simp)
      have hb3 : b3 < 256 := h b3 (by simp)
      have h1 : b1 / 4 < 64 := by omega
      have h2 : b1 % 4 * 16 + b2 / 16 < 64 := by omega
      have h3 : b2 % 16 * 4 + b3 / 64 < 64 := by omega
      have h4 : b3 % 64 < 64 := by omega
      have ih := base64_roundtrip rest (fun b hb => h b (by simp [hb]))
      simp [base64EncodeList, base64DecodeList,
        sextetVal_sextetChar _ h1, sextetVal_sextetChar _ h2,
        sextetVal_sextetChar _ h3, sextetVal_sextetChar _ h4,
        sextetChar_ne_pad _ h3, sextetChar_ne_pad _ h4, ih]
      refine ⟨by omega, by omega, by omega⟩

/-- The base64 encoding of a nonempty byte list is a nonempty string. -/
theorem base64String_ne_empty (bs : List Nat) (h : bs ≠ []) :
    (base64String bs == "") = false := by
  match bs, h with
  | [b1], _ => rfl
  | [b1, b2], _ => rfl
  | b1 :: b2 :: b3 :: rest, _ => rfl

/-! ### Splitting lemmas -/

/-- Splitting on a character that does not occur gives the whole list back
as the single piece. -/
theorem splitOnChar_not_mem (sep : Char) (l : List Char) (h : sep ∉ l) :
    splitOnChar sep l = [l] := by
  induction l with
  | nil => rfl
  | cons c cs ih =>
      have hc : (c == sep) = false := by
        simp only [List.mem_cons, not_or] at h
        simp [beq_eq_false_iff_ne]
        exact fun he => h.1 he.symm
      have hcs : sep ∉ cs := by
        simp only [List.mem_cons, not_or] at h
        exact h.2
      simp [splitOnChar, hc, ih hcs]

/-- A nonempty line no longer than the limit is a single hard-split piece. -/
theorem chunkChars_of_short (k fuel : Nat) (l : List Char)
    (h1 : l ≠ []) (h2 : l.length ≤ k) (h3 : 1 ≤ fuel) :
    chunkChars k fuel l = [l] := by
  match fuel, h3 with
  | f + 1, _ =>
    match l, h1 with
    | c :: cs, _ =>
      have htake : List.take k (c :: cs) = c :: cs := List.take_of_length_le h2
      have hdrop : List.drop k (c :: cs) = [] := by
        rw [List.drop_eq_nil_iff]; exact h2
      simp [chunkChars, htake, hdrop]

/-- A line between one and two limits long hard-splits into exactly its
first `k` characters and the remainder. -/
theorem chunkChars_of_two (k fuel : Nat) (l : List Char)
    (h1 : k < l.length) (h2 : l.length ≤ k + k) (h3 : 2 ≤ fuel) :
    chunkChars k fuel l = [l.take k, l.drop k] := by
  match fuel, h3 with
  | f + 1, h3 =>
    match l, h1 with
    | c :: cs, _ =>
      have hne : List.drop k (c :: cs) ≠ [] := by
        rw [Ne, List.drop_eq_nil_iff]; omega
      have hlen : (List.drop k (c :: cs)).length ≤ k := by
        rw [List.length_drop]; omega
      have hf : 1 ≤ f := by omega
      simp [chunkChars, chunkChars_of_short k f _ hne hlen hf]

/-- On a single line longer than the limit, the accumulator loop reduces to
the hard split of that line. -/
theorem splitMessageLoop_single_long (maxLength : Nat) (line : String)
    (h : maxLength < line.length) :
    splitMessageLoop maxLength [line] [] "" = hardSplit line maxLength := by
  have h1 : ¬ (String.length "" + line.length + 1 ≤ maxLength) := by
    have h0 : String.length "" = 0 := rfl
    omega
  rw [splitMessageLoop.eq_def]
  simp only []
  rw [if_neg h1]
  simp only [show ("" == "") = true from rfl, if_true]
  rw [if_pos h]
  rw [splitMessageLoop.eq_def]
  simp only []
  rw [if_pos (show (("" : String) == "") = true from rfl)]
  rw [List.nil_append]

/-- `splitMessage` cuts the 5000-character reply into a 4096-character chunk
followed by a 904-character chunk. -/
theorem splitMessage_longReplyText :
    splitMessage longReplyText 4096 =
      [String.mk (List.replicate 4096 'A'), String.mk (List.replicate 904 'A')] := by
  have hmem : '\n' ∉ List.replicate 5000 'A' := fun hm => by
    have h2 := (List.mem_replicate.mp hm).2
    exact absurd h2 (by decide)
  have hlen : (String.mk (List.replicate 5000 'A')).length = 5000 := by
    show (List.replicate 5000 'A').length = 5000
    rw [List.length_replicate]
  rw [splitMessage]
  rw [show longReplyText.toList = List.replicate 5000 'A' from rfl]
  rw [splitOnChar_not_mem _ _ hmem]
  rw [List.map_cons, List.map_nil]
  rw [splitMessageLoop_single_long 4096 _ (by rw [hlen]; norm_num)]
  rw [hardSplit]
  rw [show (String.mk (List.replicate 5000 'A')).toList = List.replicate 5000 'A' from rfl]
  rw [List.length_replicate]
  rw [chunkChars_of_two 4096 5000 _ (by rw [List.length_replicate]; norm_num)
    (by rw [List.length_replicate]; norm_num) (by norm_num)]
  rw [List.take_replicate, List.drop_replicate]
  norm_num

/-! ### Claim theorems -/

/-- C1: the claim says the body passed to the send primitive for a
single-chunk reply is the quoted fallback
`> <originalSenderId> originalBody`, blank line, reply text.  The reply
callback of `handleRoomMessage` in fact sends the reply text unquoted and
unthreaded: at the repository's own test input (original sender
`@user:matrix.org`, original body `Hello bot, how are you?`, reply
`I am doing well, thank you!`) the single sent body is the bare reply
text, which differs from the quoted fallback that the claim — and the
repository's reply-functionality test — prescribe. -/
theorem replyCallback_body_is_unquoted_reply :
    replyCallbackSends (some "I am doing well, thank you!") =
      [{ msgtype := "m.text", body := "I am doing well, thank you!"
         relatesToEventId := none, formattedBody := none }] ∧
    ("I am doing well, thank you!" ==
      "> <@user:matrix.org> Hello bot, how are you?\n\nI am doing well, thank you!") = false := by
  constructor
  · rfl
  · rfl

/-- C2: the claim says every chunk of a multi-chunk reply carries the same
`relatesToEventId` threading relation pointing at the original event.  At a
5000-character reply the callback does produce 2 chunks, sent in order, but
each send carries NO relation at all (`relatesToEventId = none`), contrary
to the claim and to the repository's reply-functionality test. -/
theorem replyCallback_chunks_carry_no_relation :
    (replyCallbackSends (some longReplyText)).length = 2 ∧
    ((replyCallbackSends (some longReplyText)).all
      fun r => r.relatesToEventId == none) = true := by
  have htr : strTruthy (some longReplyText) = true := rfl
  rw [replyCallbackSends, if_pos htr]
  rw [show (some longReplyText).getD "" = longReplyText from rfl]
  rw [splitMessage_longReplyText]
  constructor <;> rfl

/-- C3 counterexample: the claim says every event kind drops self-sent
events, but an annotation reaction — and a membership event — whose sender
IS the adapter's own identity is still processed and emitted:
`handleReactionEvent` and `handleMemberEvent` perform no self-echo check. -/
theorem selfSent_reaction_and_membership_forwarded :
    (handleReactionEvent stNoList envDefault "!room:matrix.org"
        selfReactionEvent).isSome = true ∧
    selfReactionEvent.sender = stNoList.ownUserId ∧
    (handleMemberEvent "!room:matrix.org" selfMemberEvent).isSome = true ∧
    selfMemberEvent.sender = stNoList.ownUserId := by
  refine ⟨rfl, rfl, rfl, rfl⟩

/-- C3 amended: self-echo suppression holds for the two message handlers —
a plain or encrypted message event whose sender equals the adapter's own
identity is dropped before normalization and emission.  (Reaction and
membership events are not checked, per the counterexample.) -/
theorem self_echo_dropped_by_message_handlers (st : ServiceState) (env : Env)
    (roomId : String) (event : MatrixEvent)
    (hSelf : (event.sender == st.ownUserId) = true) :
    handleRoomMessage st env roomId event = .dropped ∧
    handleEncryptedMessage st env roomId event = .dropped := by
  constructor <;> simp [handleRoomMessage, handleEncryptedMessage, hSelf]

/-- C3 amended, witness: a concrete self-sent text event is dropped by both
message handlers. -/
theorem self_echo_dropped_witness :
    (selfTextEvent.sender == stNoList.ownUserId) = true ∧
    (handleRoomMessage stNoList envDefault "!room:matrix.org" selfTextEvent = .dropped ∧
     handleEncryptedMessage stNoList envDefault "!room:matrix.org" selfTextEvent = .dropped) :=
  ⟨by rfl, self_echo_dropped_by_message_handlers stNoList envDefault
      "!room:matrix.org" selfTextEvent (by rfl)⟩

/-- C4: an encrypted event whose content lacks a truthy `msgtype` or `body`
(one that passed the self-echo and allow-list filters) is still forwarded,
with display text exactly the fixed placeholder, metadata
`isEncrypted=true, isDecrypted=false`, and the attachments field omitted —
for every download environment, so no media fetch can influence the
result. -/
theorem encrypted_placeholder_forwarded (st : ServiceState) (env : Env)
    (roomId : String) (event : MatrixEvent)
    (hSelf : (event.sender == st.ownUserId) = false)
    (hAllow : (st.allowedRoomIds.isSome && !isRoomAllowed st roomId) = false)
    (hNoBody : (match event.content with
                | some c => strTruthy c.msgtype && strTruthy c.body
                | none => false) = false) :
    emittedText (handleEncryptedMessage st env roomId event) =
      some (some "[Encrypted message - content not available]") ∧
    (emittedMetadata (handleEncryptedMessage st env roomId event)).map
      (fun md => md.isEncrypted) = some (some true) ∧
    (emittedMetadata (handleEncryptedMessage st env roomId event)).map
      (fun md => md.isDecrypted) = some (some false) ∧
    emittedAttachments (handleEncryptedMessage st env roomId event) =
      some none := by
  cases hc : event.content with
  | none =>
      simp [handleEncryptedMessage, hSelf, hAllow, hc, emittedText,
        emittedMetadata, emittedAttachments]
  | some c =>
      have hcb : (strTruthy c.msgtype && strTruthy c.body) = false := by
        rw [hc] at hNoBody
        exact hNoBody
      simp [handleEncryptedMessage, hSelf, hAllow, hc, hcb, emittedText,
        emittedMetadata, emittedAttachments]

/-- C4 witness: a concrete encrypted event carrying only an `algorithm`
field is forwarded as the placeholder with the claimed flags and no
attachments. -/
theorem encrypted_placeholder_witness :
    (encryptedUnreadableEvent.sender == stNoList.ownUserId) = false ∧
    (stNoList.allowedRoomIds.isSome &&
      !isRoomAllowed stNoList "!room:matrix.org") = false ∧
    (match encryptedUnreadableEvent.content with
     | some c => strTruthy c.msgtype && strTruthy c.body
     | none => false) = false ∧
    (emittedText (handleEncryptedMessage stNoList envDefault "!room:matrix.org"
        encryptedUnreadableEvent) =
      some (some "[Encrypted message - content not available]") ∧
    (emittedMetadata (handleEncryptedMessage stNoList envDefault
        "!room:matrix.org" encryptedUnreadableEvent)).map
      (fun md => md.isEncrypted) = some (some true) ∧
    (emittedMetadata (handleEncryptedMessage stNoList envDefault
        "!room:matrix.org" encryptedUnreadableEvent)).map
      (fun md => md.isDecrypted) = some (some false) ∧
    emittedAttachments (handleEncryptedMessage stNoList envDefault
        "!room:matrix.org" encryptedUnreadableEvent) = some none) :=
  ⟨rfl, rfl, rfl,
    encrypted_placeholder_forwarded stNoList envDefault "!room:matrix.org"
      encryptedUnreadableEvent rfl rfl rfl⟩

/-- C5: an image event with a declared MIME type whose download succeeds
yields exactly one attachment; its inline URI is
`data:` mime `;base64,` payload; decoding the base64 encoding reproduces
the downloaded bytes exactly (round-trip law); and the classified type
follows the MIME prefix (`image/` IMAGE, `video/` VIDEO, `audio/` AUDIO,
anything else DOCUMENT). -/
theorem image_attachment_roundtrip (st : ServiceState) (env : Env)
    (roomId sender eventId : String) (body : Option String)
    (info : MessageInfo) (u m httpUrl : String) (ts : Option Nat)
    (bytes : List Nat)
    (hSelf : (sender == st.ownUserId) = false)
    (hAllow : (st.allowedRoomIds.isSome && !isRoomAllowed st roomId) = false)
    (hBot : (st.shouldIgnoreBotMessages && strIncludes sender "bot") = false)
    (hMime : info.mimetype = some m) (hm : m ≠ "") (hu : u ≠ "")
    (hres : env.resolveMxc u = some httpUrl)
    (hdl : env.download httpUrl = .success bytes)
    (hne : bytes ≠ []) (hvalid : ∀ b ∈ bytes, b < 256) :
    emittedAttachments (handleRoomMessage st env roomId
        (imageEvent sender eventId body u info ts)) =
      some (some
        [{ url := "data:" ++ m ++ ";base64," ++ base64String bytes
           title := strOr body "image"
           source := u
           description := ctName (classifyContentType m) ++ " file: " ++
             strOr body "image" ++ " (" ++
             toString (jsRound1024 bytes.length) ++ "KB)"
           text := strOr body "image"
           contentType := classifyContentType m }]) ∧
    base64DecodeList (base64EncodeList bytes) = some bytes ∧
    (classifyContentType m == ContentType.IMAGE) = strStartsWith m "image/" ∧
    (classifyContentType m == ContentType.VIDEO) =
      (!strStartsWith m "image/" && strStartsWith m "video/") ∧
    (classifyContentType m == ContentType.Audio) =
      (!strStartsWith m "image/" && !strStartsWith m "video/" &&
       strStartsWith m "audio/") ∧
    (classifyContentType m == ContentType.DOCUMENT) =
      (!strStartsWith m "image/" && !strStartsWith m "video/" &&
       !strStartsWith m "audio/") := by
  have hub : (u == "") = false := beq_eq_false_iff_ne.mpr hu
  have hmb : (m == "") = false := beq_eq_false_iff_ne.mpr hm
  have hbe : bytes.isEmpty = false := by
    cases bytes with
    | nil => exact absurd rfl hne
    | cons b bs => rfl
  refine ⟨?_, base64_roundtrip bytes hvalid, ?_, ?_, ?_, ?_⟩
  · simp [handleRoomMessage, imageEvent, emptyContent, hSelf, hAllow, hBot,
      supportedTypes, formatPlainMessage, plainImageFormat, strTruthy,
      hMime, hub, hmb, downloadMediaContent, hres, hdl, hbe,
      base64String_ne_empty bytes hne, emittedAttachments]
  · cases h1 : strStartsWith m "image/" <;>
      cases h2 : strStartsWith m "video/" <;>
      cases h3 : strStartsWith m "audio/" <;>
      simp [classifyContentType, h1, h2, h3]
  · cases h1 : strStartsWith m "image/" <;>
      cases h2 : strStartsWith m "video/" <;>
      cases h3 : strStartsWith m "audio/" <;>
      simp [classifyContentType, h1, h2, h3]
  · cases h1 : strStartsWith m "image/" <;>
      cases h2 : strStartsWith m "video/" <;>
      cases h3 : strStartsWith m "audio/" <;>
      simp [classifyContentType, h1, h2, h3]
  · cases h1 : strStartsWith m "image/" <;>
      cases h2 : strStartsWith m "video/" <;>
      cases h3 : strStartsWith m "audio/" <;>
      simp [classifyContentType, h1, h2, h3]

/-- C5 witness: a concrete PNG event whose 4-byte download succeeds yields
the single classified IMAGE attachment with the data URI, and decoding
recovers the bytes. -/
theorem image_attachment_roundtrip_witness :
    emittedAttachments (handleRoomMessage stNoList envDownload
        "!room:matrix.org"
        (imageEvent "@user:matrix.org" "$img1:matrix.org"
          (some "vacation.jpg") "mxc://matrix.org/abc123" pngInfo
          (some 42))) =
      some (some
        [{ url := "data:" ++ "image/png" ++ ";base64," ++
             base64String [137, 80, 78, 71]
           title := strOr (some "vacation.jpg") "image"
           source := "mxc://matrix.org/abc123"
           description := ctName (classifyContentType "image/png") ++
             " file: " ++ strOr (some "vacation.jpg") "image" ++ " (" ++
             toString (jsRound1024 (List.length [137, 80, 78, 71])) ++ "KB)"
           text := strOr (some "vacation.jpg") "image"
           contentType := classifyContentType "image/png" }]) ∧
    base64DecodeList (base64EncodeList [137, 80, 78, 71]) =
      some [137, 80, 78, 71] :=
  have h := image_attachment_roundtrip stNoList envDownload "!room:matrix.org"
    "@user:matrix.org" "$img1:matrix.org" (some "vacation.jpg") pngInfo
    "mxc://matrix.org/abc123" "image/png"
    "https://matrix.org/_matrix/media/v3/download/matrix.org/abc123"
    (some 42) [137, 80, 78, 71] rfl rfl rfl rfl (by decide) (by decide)
    rfl rfl (by decide) (by decide)
  ⟨h.1, h.2.1⟩

/-- C6: with a static allow-list configured, an inbound message event from a
room outside the static-and-dynamic union is dropped; after `addAllowedRoom`
the room is allowed and the same event is forwarded; and with no static
list configured every room is allowed. -/
theorem allowlist_enforcement (st : ServiceState) (env : Env) (roomId : String)
    (event : MatrixEvent) (l : List String) (c : MessageContent)
    (hStatic : st.allowedRoomIds = some l)
    (hNotAllowed : isRoomAllowed st roomId = false)
    (hSelf : (event.sender == st.ownUserId) = false)
    (hBot : (st.shouldIgnoreBotMessages && strIncludes event.sender "bot") = false)
    (hContent : event.content = some c)
    (hSupported : (match c.msgtype with
                   | some t => supportedTypes.contains t
                   | none => false) = true) :
    handleRoomMessage st env roomId event = .dropped ∧
    isRoomAllowed (addAllowedRoom st roomId) roomId = true ∧
    (handleRoomMessage (addAllowedRoom st roomId) env roomId event).isEmitted = true ∧
    isRoomAllowed { st with allowedRoomIds := none } roomId = true := by
  have h2 : isRoomAllowed (addAllowedRoom st roomId) roomId = true := by
    simp only [addAllowedRoom, isRoomAllowed, hStatic]
    cases hd : st.dynamicRoomIds.contains roomId <;>
      simp_all [List.contains_cons]
  refine ⟨?_, h2, ?_, ?_⟩
  · simp [handleRoomMessage, hSelf, hBot, hStatic, hNotAllowed]
  · rw [handleRoomMessage.eq_def]
    have hOwn : ((addAllowedRoom st roomId).ownUserId) = st.ownUserId := rfl
    have hBot' : ((addAllowedRoom st roomId).shouldIgnoreBotMessages) =
      st.shouldIgnoreBotMessages := rfl
    rw [hOwn, hBot', hContent]
    rcases hmt : c.msgtype with _ | t
    · rw [hmt] at hSupported
      simp at hSupported
    · rw [hmt] at hSupported
      simp at hSupported
      simp [hSelf, hBot, h2, hmt, hSupported, HandleResult.isEmitted]
  · simp [isRoomAllowed]

/-- C6 witness: with the static list `[!allowed:matrix.org]`, a text event
in `!room:matrix.org` is dropped, the room becomes allowed after the
dynamic join, the same event is then forwarded, and clearing the static
list allows every room. -/
theorem allowlist_enforcement_witness :
    handleRoomMessage stRestricted envDefault "!room:matrix.org" textEvent = .dropped ∧
    isRoomAllowed (addAllowedRoom stRestricted "!room:matrix.org") "!room:matrix.org" = true ∧
    (handleRoomMessage (addAllowedRoom stRestricted "!room:matrix.org")
        envDefault "!room:matrix.org" textEvent).isEmitted = true ∧
    isRoomAllowed { stRestricted with allowedRoomIds := none } "!room:matrix.org" = true :=
  allowlist_enforcement stRestricted envDefault "!room:matrix.org" textEvent
    ["!allowed:matrix.org"]
    { emptyContent with msgtype := some "m.text"
                        body := some "Hello bot, how are you?" }
    rfl rfl rfl rfl rfl rfl

/-- C7 counterexample: the claim says the MIME type is inferred from the
filename's extension, but the code infers it from the content URL by
substring containment.  For the event with filename (body) `a.png` and URL
`mxc://server/img.gif` and no declared MIME type, the code produces
`image/gif` while the claimed filename-extension table gives `image/png`. -/
theorem mime_detection_ignores_filename :
    detectImageMime none (some "mxc://server/img.gif") = some "image/gif" ∧
    mimeFromFilenameClaim "a.png" = "image/png" ∧
    (detectImageMime none (some "mxc://server/img.gif") ==
      some (mimeFromFilenameClaim "a.png")) = false := by
  refine ⟨rfl, rfl, rfl⟩

/-- C7 amended: a truthy declared MIME type is used unchanged; otherwise the
type is inferred case-insensitively from the content URL via substring
containment against the fixed table (jpg/jpeg, png, gif, webp, bmp, svg,
checked in that order), with `image/jpeg` as the fallback — shown both in
general and at table samples, including the containment quirk
(`x.png.txt` gives `image/png`). -/
theorem mime_detection_from_url (m u : String) (hm : m ≠ "") (hu : u ≠ "") :
    detectImageMime (some m) (some u) = some m ∧
    detectImageMime none (some u) = some (mimeFromUrl u) ∧
    mimeFromUrl "mxc://server/IMG.GIF" = "image/gif" ∧
    mimeFromUrl "photo.JPEG" = "image/jpeg" ∧
    mimeFromUrl "a.PnG" = "image/png" ∧
    mimeFromUrl "b.webp" = "image/webp" ∧
    mimeFromUrl "c.BMP" = "image/bmp" ∧
    mimeFromUrl "d.svg" = "image/svg+xml" ∧
    mimeFromUrl "x.png.txt" = "image/png" ∧
    mimeFromUrl "mxc://server/noextension" = "image/jpeg" := by
  have hmb : (m == "") = false := beq_eq_false_iff_ne.mpr hm
  have hub : (u == "") = false := beq_eq_false_iff_ne.mpr hu
  refine ⟨?_, ?_, rfl, rfl, rfl, rfl, rfl, rfl, rfl, rfl⟩
  · simp [detectImageMime, strTruthy, hmb]
  · simp [detectImageMime, strTruthy, hub]

/-- C7 amended, witness: instantiated at a declared `text/plain` MIME and
the uppercase URL `IMG.GIF`. -/
theorem mime_detection_from_url_witness :
    detectImageMime (some "text/plain") (some "IMG.GIF") = some "text/plain" ∧
    detectImageMime none (some "IMG.GIF") = some (mimeFromUrl "IMG.GIF") ∧
    mimeFromUrl "mxc://server/IMG.GIF" = "image/gif" ∧
    mimeFromUrl "photo.JPEG" = "image/jpeg" ∧
    mimeFromUrl "a.PnG" = "image/png" ∧
    mimeFromUrl "b.webp" = "image/webp" ∧
    mimeFromUrl "c.BMP" = "image/bmp" ∧
    mimeFromUrl "d.svg" = "image/svg+xml" ∧
    mimeFromUrl "x.png.txt" = "image/png" ∧
    mimeFromUrl "mxc://server/noextension" = "image/jpeg" :=
  mime_detection_from_url "text/plain" "IMG.GIF" (by decide) (by decide)

/-- C8 counterexample: the claim says a reaction is forwarded only when both
an `event_id` and a `key` are present in the annotation relation, but an
annotation reaction with neither is still forwarded, with display text
`*Reacted with undefined*` (JavaScript interpolation of the missing key). -/
theorem reaction_forwarded_without_key :
    (handleReactionEvent stNoList envDefault "!room:matrix.org"
        reactionNoKeyEvent).isSome = true ∧
    (handleReactionEvent stNoList envDefault "!room:matrix.org"
        reactionNoKeyEvent).map (fun e => e.memory.text) =
      some "*Reacted with undefined*" := by
  refine ⟨rfl, rfl⟩

/-- C8 amended: a reaction event is forwarded exactly when its content
carries an `m.relates_to` relation whose type is `m.annotation` — a
reaction with no relation at all is dropped, as is any other relation type;
no presence check is made on `event_id`/`key`, and the display text is
`*Reacted with ` key `*` where an absent key renders as `undefined`.  The
equation characterizes the handler over the whole `Option RelatesTo`. -/
theorem reaction_forwarding_characterization (st : ServiceState) (env : Env)
    (roomId : String) (event : MatrixEvent) (c : MessageContent)
    (hContent : event.content = some c) :
    handleReactionEvent st env roomId event =
      (match c.relatesTo with
       | none => none
       | some r =>
           if r.rel_type == some "m.annotation" then
             some { memory := { id := event.event_id, entityId := event.sender
                                text := "*Reacted with " ++ jsShow r.key ++ "*"
                                inReplyTo := r.event_id, roomId := roomId
                                createdAt := natOr event.origin_server_ts env.now }
                    targetEventId := r.event_id, reactionKey := r.key }
           else none) := by
  rw [handleReactionEvent.eq_def, hContent]

/-- C8 amended, witness: instantiated at a concrete annotation reaction with
key `👍`; the same equation applied at a relation-less content shows the
drop. -/
theorem reaction_forwarding_witness :
    (handleReactionEvent stNoList envDefault "!room:matrix.org" selfReactionEvent =
      (match (some { rel_type := some "m.annotation"
                     event_id := some "$t:matrix.org"
                     key := some "👍" } : Option RelatesTo) with
       | none => none
       | some r =>
           if r.rel_type == some "m.annotation" then
             some { memory := { id := "$selfreact:matrix.org"
                                entityId := "@bot:matrix.org"
                                text := "*Reacted with " ++ jsShow r.key ++ "*"
                                inReplyTo := r.event_id
                                roomId := "!room:matrix.org"
                                createdAt := natOr (some 2) 1000 }
                    targetEventId := r.event_id, reactionKey := r.key }
           else none)) ∧
    (handleReactionEvent stNoList envDefault "!room:matrix.org" noRelationReactionEvent =
      (match (none : Option RelatesTo) with
       | none => none
       | some r =>
           if r.rel_type == some "m.annotation" then
             some { memory := { id := "$react3:matrix.org"
                                entityId := "@user:matrix.org"
                                text := "*Reacted with " ++ jsShow r.key ++ "*"
                                inReplyTo := r.event_id
                                roomId := "!room:matrix.org"
                                createdAt := natOr (some 6) 1000 }
                    targetEventId := r.event_id, reactionKey := r.key }
           else none)) :=
  ⟨reaction_forwarding_characterization stNoList envDefault "!room:matrix.org"
      selfReactionEvent
      { emptyContent with relatesTo := some { rel_type := some "m.annotation"
                                              event_id := some "$t:matrix.org"
                                              key := some "👍" } }
      rfl,
   reaction_forwarding_characterization stNoList envDefault "!room:matrix.org"
      noRelationReactionEvent emptyContent rfl⟩

/-- C9 counterexample: the claim says plaintext messages carry
`isEncrypted=false` and `isDecrypted=false` in their metadata, but the
plaintext handler's metadata omits both fields entirely (they are absent /
`undefined`, not explicit `false`). -/
theorem plaintext_metadata_omits_encryption_flags :
    (emittedMetadata (handleRoomMessage stNoList envDefault "!room:matrix.org"
        textEvent)).map (fun md => md.isEncrypted) = some none ∧
    (emittedMetadata (handleRoomMessage stNoList envDefault "!room:matrix.org"
        textEvent)).map (fun md => md.isDecrypted) = some none ∧
    ((some (none : Option Bool) : Option (Option Bool)) ==
      some (some false)) = false := by
  refine ⟨rfl, rfl, rfl⟩

/-- Every memory the plaintext handler emits leaves both encryption flags
absent from its metadata. -/
theorem handleRoomMessage_metadata_flags (st : ServiceState) (env : Env)
    (roomId : String) (event : MatrixEvent) (mem : Memory) (room : MatrixRoom)
    (h : handleRoomMessage st env roomId event = .emitted mem room) :
    mem.content.metadata.isEncrypted = none ∧
    mem.content.metadata.isDecrypted = none := by
  rw [handleRoomMessage.eq_def] at h
  repeat' split at h
  all_goals cases h
  all_goals exact ⟨rfl, rfl⟩

/-- Every memory the encrypted handler emits carries `isEncrypted = true`. -/
theorem handleEncryptedMessage_metadata_flags (st : ServiceState) (env : Env)
    (roomId : String) (event : MatrixEvent) (mem : Memory) (room : MatrixRoom)
    (h : handleEncryptedMessage st env roomId event = .emitted mem room) :
    mem.content.metadata.isEncrypted = some true := by
  rw [handleEncryptedMessage.eq_def] at h
  repeat' split at h
  all_goals cases h
  all_goals rfl

/-- C9 amended: for every message either handler produces,
`isDecrypted=true` implies `isEncrypted=true`; plaintext messages omit both
flags from their metadata (in particular they never carry a true flag),
and encrypted-path messages always carry `isEncrypted=true`. -/
theorem encryption_flag_consistency (st : ServiceState) (env : Env)
    (roomId : String) (event : MatrixEvent) :
    ((emittedMetadata (handleRoomMessage st env roomId event)).all
        fun md => md.isEncrypted == none && md.isDecrypted == none) = true ∧
    ((emittedMetadata (handleEncryptedMessage st env roomId event)).all
        fun md => md.isEncrypted == some true) = true ∧
    ((emittedMetadata (handleRoomMessage st env roomId event)).all
        fun md => !(md.isDecrypted == some true) ||
          md.isEncrypted == some true) = true ∧
    ((emittedMetadata (handleEncryptedMessage st env roomId event)).all
        fun md => !(md.isDecrypted == some true) ||
          md.isEncrypted == some true) = true := by
  have hplain : ∀ mem room,
      handleRoomMessage st env roomId event = .emitted mem room →
      mem.content.metadata.isEncrypted = none ∧
      mem.content.metadata.isDecrypted = none :=
    fun mem room h => handleRoomMessage_metadata_flags st env roomId event mem room h
  have henc : ∀ mem room,
      handleEncryptedMessage st env roomId event = .emitted mem room →
      mem.content.metadata.isEncrypted = some true :=
    fun mem room h => handleEncryptedMessage_metadata_flags st env roomId event mem room h
  refine ⟨?_, ?_, ?_, ?_⟩
  · cases hres : handleRoomMessage st env roomId event with
    | dropped => rfl
    | emitted mem room =>
        have := hplain mem room hres
        simp [emittedMetadata, this.1, this.2]
  · cases hres : handleEncryptedMessage st env roomId event with
    | dropped => rfl
    | emitted mem room =>
        have := henc mem room hres
        simp [emittedMetadata, this]
  · cases hres : handleRoomMessage st env roomId event with
    | dropped => rfl
    | emitted mem room =>
        have := hplain mem room hres
        simp [emittedMetadata, this.1, this.2]
  · cases hres : handleEncryptedMessage st env roomId event with
    | dropped => rfl
    | emitted mem room =>
        have := henc mem room hres
        simp [emittedMetadata, this]

/-- C10: the allow-list is enforced on the outbound path too — with the
client ready, a truthy target `channelId`, a configured static allow-list,
and the target room not allowed, `handleSendMessage` returns normally with
no send and no thrown error. -/
theorem outbound_allowlist_skip (st : ServiceState) (dmRoom : Option String)
    (attachmentSends : List SendRequest) (target : SendTarget)
    (text : Option String) (l : List String)
    (hChan : strTruthy target.channelId = true)
    (hStatic : st.allowedRoomIds = some l)
    (hNotAllowed : isRoomAllowed st (target.channelId.getD "") = false) :
    handleSendMessage st true dmRoom attachmentSends target text = .skipped := by
  simp [handleSendMessage, hChan, hStatic, hNotAllowed]

/-- C10 witness: a concrete outbound text to a non-allowed room is silently
skipped. -/
theorem outbound_allowlist_skip_witness :
    handleSendMessage stRestricted true none []
      { channelId := some "!room:matrix.org", entityId := none }
      (some "hello") = .skipped :=
  outbound_allowlist_skip stRestricted none []
    { channelId := some "!room:matrix.org", entityId := none }
    (some "hello") ["!allowed:matrix.org"] rfl rfl rfl

end MatrixPlugin
